import Mathlib

/-!
Verification of the llmfit desktop UI logic (`ui/app.js`).

The file shallowly embeds the two UI variants contained in `app.js`:
the record store, the filter predicate, the comparator engine, the
selection state machine, the view projector (formatting, HTML escaping)
and the render pipeline.  JavaScript numbers are modelled as exact
rationals (`ℚ`); the arithmetic the source performs on them is embedded
through kernel-computable operations on the `Rat` representation so that
every definition can be evaluated on concrete inputs inside proofs.
Strings are Lean `String`s, manipulated through their character lists.
-/

namespace Llmfit

/-! ### JavaScript number primitives -/

/-- Exact-rational model of JavaScript `+` on numbers. -/
def ratAdd (a b : ℚ) : ℚ := mkRat (a.num * b.den + b.num * a.den) (a.den * b.den)

/-- Exact-rational model of JavaScript `-` on numbers. -/
def ratSub (a b : ℚ) : ℚ := mkRat (a.num * b.den - b.num * a.den) (a.den * b.den)

/-- Exact-rational model of JavaScript `*` on numbers. -/
def ratMul (a b : ℚ) : ℚ := mkRat (a.num * b.num) (a.den * b.den)

/-- Exact-rational model of JavaScript `/` on numbers. -/
def ratDiv (a b : ℚ) : ℚ :=
  mkRat (a.num * b.den * (if b.num < 0 then -1 else 1)) (a.den * b.num.natAbs)

/-- Rounding to the nearest integer, ties toward positive infinity: the
tie-breaking rule of `Number.prototype.toFixed` ("pick the larger n"). -/
def jsRound (q : ℚ) : ℤ := (ratAdd q (mkRat 1 2)).floor

/-- Model of JavaScript `toFixed(0)`. -/
def toFixed0 (q : ℚ) : String := toString (jsRound q)

/-- Digits of a number of tenths, used by `toFixed1`: `1437 ↦ "143.7"`. -/
def tenthsToString (n : ℤ) : String :=
  if n < 0 then "-" ++ toString (n.natAbs / 10) ++ "." ++ toString (n.natAbs % 10)
  else toString (n.toNat / 10) ++ "." ++ toString (n.toNat % 10)

/-- Model of JavaScript `toFixed(1)`: round to the nearest tenth and print
with exactly one digit after the decimal point. -/
def toFixed1 (q : ℚ) : String := tenthsToString (jsRound (ratMul q 10))

/-- Fractional digits (at most the given fuel many) of a rational in `[0,1)`. -/
def fracDigits : Nat → ℚ → List Char
  | 0, _ => []
  | n + 1, q =>
    if q = 0 then []
    else
      let q10 := ratMul q 10
      Char.ofNat (48 + q10.floor.toNat) :: fracDigits n (ratSub q10 (mkRat q10.floor 1))

/-- Model of JavaScript number-to-string conversion for the numbers this UI
interpolates into markup.  Integers print without a decimal point; other
values print their (terminating, for every value produced here) decimal
expansion, truncated to 20 places. -/
def jsNumToString (q : ℚ) : String :=
  let sign := if q < 0 then "-" else ""
  let a : ℚ := if q < 0 then -q else q
  let ip : Nat := a.floor.toNat
  let frac : ℚ := ratSub a (mkRat a.floor 1)
  if frac = 0 then sign ++ toString ip
  else sign ++ toString ip ++ "." ++ String.mk (fracDigits 20 frac)

/-! ### JavaScript string primitives -/

/-- Model of JavaScript `toLowerCase` (exact on the ASCII range, which is
all the source relies on). -/
def jsToLower (s : String) : String := String.mk (s.data.map Char.toLower)

/-- Does the first character list start with the second? -/
def seqStartsWith : List Char → List Char → Bool
  | _, [] => true
  | [], _ :: _ => false
  | a :: as, b :: bs => a == b && seqStartsWith as bs

/-- Does the first character list contain the second as a contiguous run? -/
def seqContains : List Char → List Char → Bool
  | [], nee => nee.isEmpty
  | a :: as, nee => seqStartsWith (a :: as) nee || seqContains as nee

/-- Model of JavaScript `String.prototype.includes`. -/
def jsIncludes (hay nee : String) : Bool := seqContains hay.data nee.data

/-- Escaping of one character as performed by assigning `textContent` and
reading back `innerHTML` (the body of the source's `escapeHtml`). -/
def escapeChar (c : Char) : List Char :=
  if c == '&' then ("&amp;").data
  else if c == '<' then ("&lt;").data
  else if c == '>' then ("&gt;").data
  else [c]

/-- Embedding of `escapeHtml` from `app.js`: neutralize markup-injection
characters by HTML-escaping them. -/
def escapeHtml (s : String) : String := String.mk (s.data.map escapeChar).flatten

/-- Split a character list at every occurrence of a separator character,
the list-level behaviour of JavaScript `split`. -/
def splitOnChar (sep : Char) : List Char → List (List Char)
  | [] => [[]]
  | c :: cs =>
    if c == sep then [] :: splitOnChar sep cs
    else
      match splitOnChar sep cs with
      | [] => [[c]]
      | r :: rs => (c :: r) :: rs

/-- Model of the source's `name.split('/').pop()`: the substring after the
last path separator. -/
def jsSplitPop (s : String) : String :=
  String.mk ((splitOnChar ('/') s.data).getLastD [])

/-! ### A stable sort, as performed by `Array.prototype.sort` -/

/-- Insert an element behind every existing element that must stay strictly
before it; equal elements keep their relative order (stability). -/
def insertSorted (lt : α → α → Bool) (x : α) : List α → List α
  | [] => [x]
  | y :: ys => if lt y x then y :: insertSorted lt x ys else x :: y :: ys

/-- Model of `Array.prototype.sort` with a comparator: a stable sort of the
list, ordering `y` strictly before `x` whenever `lt y x`. -/
def jsArraySort (lt : α → α → Bool) : List α → List α
  | [] => []
  | x :: xs => insertSorted lt x (jsArraySort lt xs)

/-! ### Data model -/

/-- The `ModelFitRecord` consumed by the first UI variant, with the fields
`app.js` reads (field names follow the source). -/
structure ModelFitRecord where
  name : String
  provider : String
  params : String
  score : ℚ
  fit_level : String
  fit_emoji : String
  estimated_tps : ℚ
  best_quant : String
  run_mode : String
  utilization_pct : ℚ
  context_length : ℚ
  installed : Bool
  memory_required_gb : ℚ
  memory_available_gb : ℚ
  score_memory : ℚ
  score_speed : ℚ
  score_quality : ℚ
  score_context : ℚ
  category : String
  use_case : String
  notes : List String
deriving DecidableEq

/-- The four filter inputs read from the DOM by `getFilteredModels`. -/
structure Filters where
  searchText : String
  fitFilter : String
  catFilter : String
  installedOnly : Bool
deriving DecidableEq

/-- A dynamically typed JavaScript field value, as inspected by the
comparator through `typeof`. -/
inductive JsValue where
  | str (s : String)
  | bool (b : Bool)
  | num (q : ℚ)
deriving DecidableEq

/-- Dynamic field lookup `m[sortKey]` on a record; unknown keys yield
`none` (JavaScript `undefined`). -/
def getField (m : ModelFitRecord) : String → Option JsValue
  | "name" => some (.str m.name)
  | "provider" => some (.str m.provider)
  | "params" => some (.str m.params)
  | "score" => some (.num m.score)
  | "fit_level" => some (.str m.fit_level)
  | "fit_emoji" => some (.str m.fit_emoji)
  | "estimated_tps" => some (.num m.estimated_tps)
  | "best_quant" => some (.str m.best_quant)
  | "run_mode" => some (.str m.run_mode)
  | "utilization_pct" => some (.num m.utilization_pct)
  | "context_length" => some (.num m.context_length)
  | "installed" => some (.bool m.installed)
  | "memory_required_gb" => some (.num m.memory_required_gb)
  | "memory_available_gb" => some (.num m.memory_available_gb)
  | _ => none

/-! ### Filtering (`getFilteredModels`, app.js lines 50–64) -/

/-- The filter callback of `getFilteredModels`: each `if … return false`
guard of the source in order, `true` otherwise. -/
def filterCallback (search fitFilter catFilter : String) (installedOnly : Bool)
    (m : ModelFitRecord) : Bool :=
  if search != "" && !(jsIncludes (jsToLower m.name) search)
      && !(jsIncludes (jsToLower m.provider) search) then false
  else if fitFilter != "all" && m.fit_level != fitFilter then false
  else if catFilter != "all" && m.category != catFilter then false
  else if installedOnly && !m.installed then false
  else true

/-- Embedding of `getFilteredModels`; the DOM input values are the
`Filters` argument, and the search text is lowercased on read as in the
source. -/
def getFilteredModels (fs : Filters) (allModels : List ModelFitRecord) :
    List ModelFitRecord :=
  let search := jsToLower fs.searchText
  allModels.filter (filterCallback search fs.fitFilter fs.catFilter fs.installedOnly)

/-! ### Sorting (`sortModels`, app.js lines 67–77) -/

/-- The comparator closure inside `sortModels`, parametrized by the host's
`localeCompare` function `lc`.  String values are lowercased and compared
with `lc`, direction applied by swapping the operands; booleans are
coerced to 1/0; numbers are compared by subtraction.  Mismatched runtime
types (which a well-typed record set never produces) yield `none`. -/
def compareFn (lc : String → String → ℚ) (sortAsc : Bool) (va vb : JsValue) : Option ℚ :=
  match va, vb with
  | .str a, .str b =>
    let a := jsToLower a
    let b := jsToLower b
    some (if sortAsc then lc a b else lc b a)
  | .bool a, .bool b =>
    let va : ℚ := if a then 1 else 0
    let vb : ℚ := if b then 1 else 0
    some (if sortAsc then ratSub va vb else ratSub vb va)
  | .num a, .num b => some (if sortAsc then ratSub a b else ratSub b a)
  | _, _ => none

/-- The record comparator `(a, b) => { let va = a[sortKey], vb = b[sortKey]; … }`. -/
def modelComparator (lc : String → String → ℚ) (sortKey : String) (sortAsc : Bool)
    (a b : ModelFitRecord) : Option ℚ :=
  match getField a sortKey, getField b sortKey with
  | some va, some vb => compareFn lc sortAsc va vb
  | _, _ => none

/-- Embedding of `sortModels` at the level of record lists: a stable sort
by the comparator (an element goes strictly first iff the comparator is
negative on the pair). -/
def sortModels (lc : String → String → ℚ) (sortKey : String) (sortAsc : Bool)
    (models : List ModelFitRecord) : List ModelFitRecord :=
  jsArraySort (fun a b =>
    match modelComparator lc sortKey sortAsc a b with
    | some q => decide (q < 0)
    | none => false) models

/-- A concrete locale comparator to instantiate the engine with: plain
code-point lexicographic comparison. -/
def lexCharLt : List Char → List Char → Bool
  | [], [] => false
  | [], _ :: _ => true
  | _ :: _, [] => false
  | a :: as, b :: bs => decide (a < b) || (a == b && lexCharLt as bs)

/-- A concrete `localeCompare`: −1 / 1 / 0 by code-point order. -/
def lcDefault (a b : String) : ℚ :=
  if lexCharLt a.data b.data then -1 else if lexCharLt b.data a.data then 1 else 0

/-! ### Rendering, variant 1 (`renderTable` / `showDetail` / `scoreBar`) -/

/-- One `<tr>` of the table body (the template literal of `renderTable`,
app.js lines 85–101). -/
def renderRow (selectedModel : Option String) (m : ModelFitRecord) : String :=
  "\n    <tr class=\"model-row " ++ (if selectedModel == some m.name then "selected" else "") ++
  "\" data-name=\"" ++ m.name ++
  "\">\n      <td>\n        <div class=\"model-name\">" ++ escapeHtml (jsSplitPop m.name) ++
  "</div>\n        <div class=\"model-provider\">" ++ escapeHtml m.provider ++
  "</div>\n      </td>\n      <td>" ++ m.params ++
  "</td>\n      <td><strong>" ++ toFixed0 m.score ++
  "</strong></td>\n      <td><span class=\"fit-badge fit-" ++ m.fit_level ++ "\">" ++
  m.fit_emoji ++ " " ++ m.fit_level ++
  "</span></td>\n      <td>" ++ toFixed1 m.estimated_tps ++
  "</td>\n      <td>" ++ m.best_quant ++
  "</td>\n      <td>" ++ m.run_mode ++
  "</td>\n      <td>" ++ toFixed0 m.utilization_pct ++
  "%</td>\n      <td>" ++ toFixed0 (ratDiv m.context_length 1000) ++
  "k</td>\n      <td class=\"" ++ (if m.installed then "installed-yes" else "installed-no") ++
  "\">" ++ (if m.installed then "✓" else "—") ++ "</td>\n    </tr>\n  "

/-- The memory-utilization bar width of the detail panel
(`Math.min(model.utilization_pct, 100)`, app.js line 167). -/
def detailBarWidth (model : ModelFitRecord) : ℚ := min model.utilization_pct 100

/-- The memory-utilization numeric label of the detail panel
(`model.utilization_pct.toFixed(1)` followed by a percent sign, line 171). -/
def detailBarLabel (model : ModelFitRecord) : String :=
  toFixed1 model.utilization_pct ++ "%"

/-- Embedding of `scoreBar` (app.js lines 213–226). -/
def scoreBar (label : String) (value : ℚ) (cls : String) : String :=
  let pct := max 0 (min 100 (ratMul (ratDiv value 30) 100))
  "\n    <div class=\"score-bar-container\">\n      <div class=\"score-bar-label\">\n        <span>" ++
  label ++ "</span>\n        <span>" ++ toFixed1 value ++
  "</span>\n      </div>\n      <div class=\"score-bar\">\n        <div class=\"score-bar-fill " ++
  cls ++ "\" style=\"width: " ++ jsNumToString pct ++ "%\"></div>\n      </div>\n    </div>\n  "

/-- The detail-panel markup assigned to `detail-content` by `showDetail`
(app.js lines 117–206). -/
def detailContentHtml (model : ModelFitRecord) : String :=
  "\n    <div class=\"detail-header\">\n      <h2>" ++ escapeHtml (jsSplitPop model.name) ++
  "</h2>\n      <div class=\"provider\">" ++ escapeHtml model.provider ++ " · " ++
  escapeHtml model.name ++
  "</div>\n    </div>\n\n    <div class=\"detail-section\">\n      <h3>Fit Assessment</h3>\n      <div class=\"detail-grid\">\n        <div class=\"detail-item\">\n          <span class=\"label\">Fit Level</span>\n          <span class=\"value\"><span class=\"fit-badge fit-" ++
  model.fit_level ++ "\">" ++ model.fit_emoji ++ " " ++ model.fit_level ++
  "</span></span>\n        </div>\n        <div class=\"detail-item\">\n          <span class=\"label\">Overall Score</span>\n          <span class=\"value\">" ++
  toFixed1 model.score ++
  "</span>\n        </div>\n        <div class=\"detail-item\">\n          <span class=\"label\">Est. Speed</span>\n          <span class=\"value\">" ++
  toFixed1 model.estimated_tps ++ " tok/s" ++
  "</span>\n        </div>\n        <div class=\"detail-item\">\n          <span class=\"label\">Run Mode</span>\n          <span class=\"value\">" ++
  model.run_mode ++
  "</span>\n        </div>\n        <div class=\"detail-item\">\n          <span class=\"label\">Quantization</span>\n          <span class=\"value\">" ++
  model.best_quant ++
  "</span>\n        </div>\n        <div class=\"detail-item\">\n          <span class=\"label\">Context</span>\n          <span class=\"value\">" ++
  toFixed0 (ratDiv model.context_length 1000) ++ "k" ++
  "</span>\n        </div>\n      </div>\n    </div>\n\n    <div class=\"detail-section\">\n      <h3>Memory</h3>\n      <div class=\"detail-grid\">\n        <div class=\"detail-item\">\n          <span class=\"label\">Required</span>\n          <span class=\"value\">" ++
  toFixed1 model.memory_required_gb ++ " GB" ++
  "</span>\n        </div>\n        <div class=\"detail-item\">\n          <span class=\"label\">Available</span>\n          <span class=\"value\">" ++
  toFixed1 model.memory_available_gb ++ " GB" ++
  "</span>\n        </div>\n      </div>\n      <div style=\"margin-top: 8px\">\n        <div class=\"score-bar\">\n          <div class=\"score-bar-fill memory\" style=\"width: " ++
  jsNumToString (detailBarWidth model) ++
  "%\"></div>\n        </div>\n        <div class=\"score-bar-label\">\n          <span>Memory utilization</span>\n          <span>" ++
  detailBarLabel model ++
  "</span>\n        </div>\n      </div>\n    </div>\n\n    <div class=\"detail-section\">\n      <h3>Score Breakdown</h3>\n      " ++
  scoreBar ("Memory") model.score_memory ("memory") ++ "\n      " ++
  scoreBar ("Speed") model.score_speed ("speed") ++ "\n      " ++
  scoreBar ("Quality") model.score_quality ("quality") ++ "\n      " ++
  scoreBar ("Context") model.score_context ("context") ++
  "\n    </div>\n\n    <div class=\"detail-section\">\n      <h3>Category</h3>\n      <div class=\"detail-item\">\n        <span class=\"value\">" ++
  escapeHtml model.category ++ " — " ++ escapeHtml model.use_case ++
  "</span>\n      </div>\n    </div>\n\n    " ++
  (if model.notes.length > 0 then
    "\n      <div class=\"detail-section\">\n        <h3>Notes</h3>\n        " ++
    String.join (model.notes.map (fun n => "<div class=\"note\">" ++ escapeHtml n ++ "</div>")) ++
    "\n      </div>\n    "
  else "") ++
  "\n\n    <div class=\"detail-section\">\n      <h3>Status</h3>\n      <div class=\"detail-item\">\n        <span class=\"value " ++
  (if model.installed then "installed-yes" else "installed-no") ++ "\">\n          " ++
  (if model.installed then "✓ Installed" else "✗ Not installed") ++
  "\n        </span>\n      </div>\n    </div>\n  "

/-! ### Variant-1 view state and event handlers -/

/-- The module-level mutable state of the first variant together with the
DOM surfaces it writes: filter inputs, the count label, the table body,
the detail panel's visibility class and content. -/
structure AppState where
  allModels : List ModelFitRecord
  sortKey : String
  sortAsc : Bool
  selectedModel : Option String
  filters : Filters
  modelCount : String
  tbody : String
  panelVisible : Bool
  detailContent : String
deriving DecidableEq

/-- Embedding of `renderTable` (app.js lines 80–107): filter, sort, write
the count label `"{visible} of {total} models"` and the joined rows. -/
def renderTable (lc : String → String → ℚ) (s : AppState) : AppState :=
  let filtered := sortModels lc s.sortKey s.sortAsc (getFilteredModels s.filters s.allModels)
  { s with
    modelCount := toString filtered.length ++ " of " ++ toString s.allModels.length ++ " models",
    tbody := String.join (filtered.map (renderRow s.selectedModel)) }

/-- Embedding of the first variant's `loadModels` (app.js lines 40–47):
on success replace `allModels` and re-render; on failure only log. -/
def loadModels (lc : String → String → ℚ) (s : AppState)
    (result : Except String (List ModelFitRecord)) : AppState :=
  match result with
  | .ok models => renderTable lc { s with allModels := models }
  | .error _ => s

/-- Embedding of `showDetail` (app.js lines 109–211): set the selection
key, look the record up, and on a hit fill the panel, reveal it and
re-render; on a miss return early. -/
def showDetail (lc : String → String → ℚ) (s : AppState) (name : String) : AppState :=
  let s1 := { s with selectedModel := some name }
  match s1.allModels.find? (fun m => m.name == name) with
  | none => s1
  | some model =>
    renderTable lc { s1 with detailContent := detailContentHtml model, panelVisible := true }

/-- Embedding of the column-header click handler (app.js lines 248–261):
same key flips the direction, a new key is adopted with descending
direction; then re-render. -/
def headerClick (lc : String → String → ℚ) (s : AppState) (key : String) : AppState :=
  renderTable lc
    (if s.sortKey == key then { s with sortAsc := !s.sortAsc }
     else { s with sortKey := key, sortAsc := false })

/-! ### Variant 2 (second half of app.js) -/

/-- The record shape consumed by the second UI variant. -/
structure V2Record where
  name : String
  params_b : ℚ
  quant : String
  fit_level : String
  run_mode : String
  score : ℚ
  estimated_tps : ℚ
  use_case : String
deriving DecidableEq

/-- Embedding of `fitClass` (app.js lines 301–308). -/
def fitClass (level : String) : String :=
  match level with
  | "Perfect" => "fit-perfect"
  | "Good" => "fit-good"
  | "Marginal" => "fit-marginal"
  | _ => "fit-tight"

/-- Embedding of `modeClass` (app.js lines 310–317). -/
def modeClass (mode : String) : String :=
  match mode with
  | "GPU" => "mode-gpu"
  | "MoE Offload" => "mode-moe"
  | "CPU Offload" => "mode-cpuoffload"
  | _ => "mode-cpuonly"

/-- One `<tr>` of the second variant's table (app.js lines 325–336). -/
def renderV2Row (f : V2Record) : String :=
  "\n    <tr>\n      <td><strong>" ++ f.name ++
  "</strong></td>\n      <td>" ++ toFixed1 f.params_b ++
  "B</td>\n      <td>" ++ f.quant ++
  "</td>\n      <td class=\"" ++ fitClass f.fit_level ++ "\">" ++ f.fit_level ++
  "</td>\n      <td class=\"" ++ modeClass f.run_mode ++ "\">" ++ f.run_mode ++
  "</td>\n      <td>" ++ toFixed0 f.score ++
  "</td>\n      <td>" ++ toFixed1 f.estimated_tps ++
  "</td>\n      <td>" ++ f.use_case ++ "</td>\n    </tr>\n  "

/-- The empty-set placeholder row of the second variant (app.js line 322). -/
def noModelsRow : String :=
  "<tr><td colspan=\"8\" class=\"loading\">No models found</td></tr>"

/-- The fetch-failure placeholder row of the second variant (app.js
lines 359–360). -/
def errorLoadingRow : String :=
  "<tr><td colspan=\"8\" class=\"loading\">Error loading models</td></tr>"

/-- Modelled from the spec: the initial "loading" placeholder the table
shows before the first `get_model_fits` response (§6's third state).  It
is set by the host HTML document, which is not among the sources; its
exact text is chosen here, distinct from the two rows above. -/
def initialLoadingRow : String :=
  "<tr><td colspan=\"8\" class=\"loading\">Loading models…</td></tr>"

/-- Embedding of the second variant's `renderModels` (app.js lines
319–337): the string written to the table body. -/
def renderModels (fits : List V2Record) : String :=
  if fits.isEmpty then noModelsRow
  else String.join (fits.map renderV2Row)

/-- The second variant's module state and table-body surface. -/
structure V2State where
  allFits : List V2Record
  search : String
  fitFilter : String
  modelsBody : String
deriving DecidableEq

/-- Embedding of the second variant's `applyFilters` (app.js lines
339–351). -/
def applyFilters (s : V2State) : V2State :=
  let search := jsToLower s.search
  let filtered :=
    if search != "" then s.allFits.filter (fun f => jsIncludes (jsToLower f.name) search)
    else s.allFits
  let filtered :=
    if s.fitFilter != "all" then filtered.filter (fun f => f.fit_level == s.fitFilter)
    else filtered
  { s with modelsBody := renderModels filtered }

/-- Embedding of the second variant's `loadModels` (app.js lines 353–362):
a null response is coalesced to the empty list (`|| []`); a rejection
writes the error row. -/
def loadModelsV2 (s : V2State) (result : Except String (Option (List V2Record))) : V2State :=
  match result with
  | .ok r => applyFilters { s with allFits := r.getD [] }
  | .error _ => { s with modelsBody := errorLoadingRow }

/-! ### A reference-level view of the arrays, for the frame property -/

/-- A store of JavaScript arrays of records, indexed by reference.  It
makes in-place mutation observable: `Array.prototype.sort` mutates the
array behind its receiver reference, while the spread `[...models]`
allocates a fresh array. -/
structure ArrayHeap where
  arrays : List (List ModelFitRecord)
deriving DecidableEq

/-- Read the array behind a reference. -/
def ArrayHeap.get (h : ArrayHeap) (r : Nat) : List ModelFitRecord := h.arrays.getD r []

/-- Allocate a fresh array; returns the new heap and the new reference. -/
def ArrayHeap.alloc (h : ArrayHeap) (l : List ModelFitRecord) : ArrayHeap × Nat :=
  (⟨h.arrays ++ [l]⟩, h.arrays.length)

/-- Overwrite the array behind a reference (in-place mutation). -/
def ArrayHeap.put (h : ArrayHeap) (r : Nat) (l : List ModelFitRecord) : ArrayHeap :=
  ⟨h.arrays.set r l⟩

/-- Reference-level embedding of `sortModels` (app.js lines 67–77): read
the array behind the input reference, allocate the spread copy
`[...models]`, sort that fresh array in place, and return its
reference. -/
def sortModelsRef (lc : String → String → ℚ) (sortKey : String) (sortAsc : Bool)
    (h : ArrayHeap) (r : Nat) : ArrayHeap × Nat :=
  let models := h.get r
  let (h1, r1) := h.alloc models
  (h1.put r1 (sortModels lc sortKey sortAsc (h1.get r1)), r1)

/-! ### Concrete fixtures used by witnesses and counterexamples -/

/-- The first record of the spec's end-to-end scenario (§8):
name "a/x", score 80, fit level "good", installed. -/
def recAX : ModelFitRecord :=
  { name := "a/x", provider := "a", params := "7B", score := 80,
    fit_level := "good", fit_emoji := "🟢", estimated_tps := mkRat 421 10,
    best_quant := "Q4_K_M", run_mode := "gpu", utilization_pct := mkRat 834 10,
    context_length := 8192, installed := true,
    memory_required_gb := mkRat 42 10, memory_available_gb := 8,
    score_memory := 25, score_speed := 20, score_quality := 18, score_context := 17,
    category := "general", use_case := "chat", notes := [] }

/-- The second record of the spec's end-to-end scenario (§8):
name "b/y", score 95, fit level "perfect", not installed. -/
def recBY : ModelFitRecord :=
  { recAX with
    name := "b/y", provider := "b", score := 95, fit_level := "perfect",
    installed := false }

/-- Default filter inputs: empty search, both select filters on "all",
installed-only unchecked. -/
def defaultFilters : Filters :=
  { searchText := "", fitFilter := "all", catFilter := "all", installedOnly := false }

/-- A view state with the module defaults of app.js lines 5–8
(`sortKey = 'score'`, `sortAsc = false`, no selection) and the modelled
initial table placeholder. -/
def baseState : AppState :=
  { allModels := [], sortKey := "score", sortAsc := false, selectedModel := none,
    filters := defaultFilters, modelCount := "", tbody := initialLoadingRow,
    panelVisible := false, detailContent := "" }

/-- A record named "modelA", for the stale-selection scenario of §8. -/
def recModelA : ModelFitRecord := { recAX with name := "modelA" }

/-- The state right before the refresh of the stale-selection scenario:
"modelA" is loaded and selected, and its detail panel is open. -/
def staleSelState : AppState :=
  { baseState with
    allModels := [recModelA], selectedModel := some ("modelA"),
    panelVisible := true, detailContent := detailContentHtml recModelA }

/-- A record with the spec's example utilization value 143.7. -/
def recOverUtil : ModelFitRecord := { recAX with utilization_pct := mkRat 1437 10 }

/-- A record with a (nonsensical but representable) negative utilization. -/
def recNegUtil : ModelFitRecord := { recAX with utilization_pct := -5 }

/-- A record whose `params` field carries a markup-injection payload. -/
def payloadRecord : ModelFitRecord := { recAX with params := "<img src=x onerror=alert(1)>" }

/-- A second-variant record whose `name` carries the same payload. -/
def payloadV2Record : V2Record :=
  { name := "<img src=x onerror=alert(1)>", params_b := 7, quant := "Q4_K_M",
    fit_level := "Good", run_mode := "GPU", score := 80, estimated_tps := mkRat 421 10,
    use_case := "chat" }

/-- A one-array heap holding the two scenario records. -/
def heap0 : ArrayHeap := ⟨[[recAX, recBY]]⟩

/-- The §8 scenario state: both records loaded, installed-only active. -/
def installedOnlyState : AppState :=
  { baseState with
    allModels := [recAX, recBY],
    filters := { defaultFilters with installedOnly := true } }

/-! ### Helper lemmas -/

theorem jsToLower_eq_empty_iff (s : String) : jsToLower s = "" ↔ s = "" := by
  rw [jsToLower, String.ext_iff, String.ext_iff]
  simp

theorem seqStartsWith_iff (hay nee : List Char) :
    seqStartsWith hay nee = true ↔ ∃ post, hay = nee ++ post := by
  induction nee generalizing hay with
  | nil => simp [seqStartsWith]
  | cons b bs ih =>
    cases hay with
    | nil => simp [seqStartsWith]
    | cons a as =>
      simp only [seqStartsWith, Bool.and_eq_true, beq_iff_eq, ih, List.cons_append,
        List.cons.injEq]
      constructor
      · rintro ⟨rfl, post, rfl⟩
        exact ⟨post, rfl, rfl⟩
      · rintro ⟨post, rfl, rfl⟩
        exact ⟨rfl, post, rfl⟩

theorem seqContains_iff (hay nee : List Char) :
    seqContains hay nee = true ↔ ∃ pre post, hay = pre ++ nee ++ post := by
  induction hay with
  | nil =>
    simp only [seqContains, List.isEmpty_iff]
    constructor
    · rintro rfl
      exact ⟨[], [], rfl⟩
    · rintro ⟨pre, post, h⟩
      rcases List.append_eq_nil.mp (List.append_eq_nil.mp h.symm).1 with ⟨-, h1⟩
      exact h1
  | cons a as ih =>
    simp only [seqContains, Bool.or_eq_true, seqStartsWith_iff, ih]
    constructor
    · rintro (⟨post, h⟩ | ⟨pre, post, h⟩)
      · exact ⟨[], post, by simpa using h⟩
      · exact ⟨a :: pre, post, by simp [h]⟩
    · rintro ⟨pre, post, h⟩
      cases pre with
      | nil => exact Or.inl ⟨post, by simpa using h⟩
      | cons p ps =>
        simp only [List.cons_append] at h
        injection h with h1 h2
        exact Or.inr ⟨ps, post, h2⟩

theorem jsIncludes_iff (hay nee : String) :
    jsIncludes hay nee = true ↔ ∃ pre post, hay.data = pre ++ nee.data ++ post := by
  rw [jsIncludes, seqContains_iff]

theorem insertSorted_perm (lt : α → α → Bool) (x : α) (l : List α) :
    (insertSorted lt x l).Perm (x :: l) := by
  induction l with
  | nil => exact List.Perm.refl _
  | cons y ys ih =>
    by_cases h : lt y x = true
    · simp only [insertSorted, h, if_true]
      exact (ih.cons y).trans (List.Perm.swap x y ys)
    · simp only [insertSorted, h, if_false]
      exact List.Perm.refl _

theorem jsArraySort_perm (lt : α → α → Bool) (l : List α) :
    (jsArraySort lt l).Perm l := by
  induction l with
  | nil => exact List.Perm.refl _
  | cons x xs ih => exact (insertSorted_perm lt x _).trans (ih.cons x)

theorem sortModels_perm (lc : String → String → ℚ) (sortKey : String) (sortAsc : Bool)
    (models : List ModelFitRecord) : (sortModels lc sortKey sortAsc models).Perm models :=
  jsArraySort_perm _ models

theorem sortModels_length (lc : String → String → ℚ) (sortKey : String) (sortAsc : Bool)
    (models : List ModelFitRecord) :
    (sortModels lc sortKey sortAsc models).length = models.length :=
  (sortModels_perm lc sortKey sortAsc models).length_eq

theorem ratSub_eq (a b : ℚ) : ratSub a b = a - b := by
  rw [ratSub, Rat.mkRat_eq_div]
  have ha : ((a.den : ℚ)) ≠ 0 := by
    exact_mod_cast a.den_pos.ne'
  have hb : ((b.den : ℚ)) ≠ 0 := by
    exact_mod_cast b.den_pos.ne'
  conv_rhs => rw [← Rat.num_div_den a, ← Rat.num_div_den b]
  rw [div_sub_div _ _ ha hb]
  push_cast
  ring_nf

theorem listSetAppend (l : List α) (x y : α) : (l ++ [x]).set l.length y = l ++ [y] := by
  induction l with
  | nil => rfl
  | cons a as ih =>
    show a :: (as ++ [x]).set as.length y = a :: (as ++ [y])
    rw [ih]

theorem listGetDAppend (l l2 : List α) (r : Nat) (d : α) (hr : r < l.length) :
    (l ++ l2).getD r d = l.getD r d := by
  induction l generalizing r with
  | nil => exact absurd hr (by simp)
  | cons a as ih =>
    cases r with
    | zero => rfl
    | succ n => exact ih n (by simpa using hr)

theorem listGetDLength (l : List α) (x : α) (d : α) : (l ++ [x]).getD l.length d = x := by
  induction l with
  | nil => rfl
  | cons a as ih => simp [ih]

theorem guardSearch (search : String) (b1 b2 : Bool) :
    (search != "" && !b1 && !b2) = false ↔ (search ≠ "" → b1 = true ∨ b2 = true) := by
  by_cases hs : search = "" <;> cases b1 <;> cases b2 <;> simp [hs, bne_iff_ne]

theorem guardEq (f a v : String) :
    (f != a && v != f) = false ↔ (f ≠ a → v = f) := by
  by_cases hf : f = a <;> by_cases hv : v = f <;> simp [hf, hv, bne_iff_ne]

theorem guardInstalled (io i : Bool) : (io && !i) = false ↔ (io = true → i = true) := by
  cases io <;> cases i <;> simp

theorem filterCallback_iff (search fitFilter catFilter : String) (installedOnly : Bool)
    (m : ModelFitRecord) :
    filterCallback search fitFilter catFilter installedOnly m = true ↔
      ((search ≠ "" →
          jsIncludes (jsToLower m.name) search = true ∨
          jsIncludes (jsToLower m.provider) search = true) ∧
       (fitFilter ≠ "all" → m.fit_level = fitFilter) ∧
       (catFilter ≠ "all" → m.category = catFilter) ∧
       (installedOnly = true → m.installed = true)) := by
  unfold filterCallback
  split_ifs with h1 h2 h3 h4
  · refine iff_of_false (by simp) ?_
    rintro ⟨p1, -, -, -⟩
    rw [Bool.and_eq_true, Bool.and_eq_true] at h1
    obtain ⟨⟨hA, hB⟩, hC⟩ := h1
    rw [Bool.not_eq_true'] at hB hC
    rcases p1 (bne_iff_ne.mp hA) with hb | hb
    · rw [hb] at hB
      exact absurd hB (by decide)
    · rw [hb] at hC
      exact absurd hC (by decide)
  · refine iff_of_false (by simp) ?_
    rintro ⟨-, p2, -, -⟩
    rw [Bool.and_eq_true] at h2
    obtain ⟨hA, hB⟩ := h2
    exact bne_iff_ne.mp hB (p2 (bne_iff_ne.mp hA))
  · refine iff_of_false (by simp) ?_
    rintro ⟨-, -, p3, -⟩
    rw [Bool.and_eq_true] at h3
    obtain ⟨hA, hB⟩ := h3
    exact bne_iff_ne.mp hB (p3 (bne_iff_ne.mp hA))
  · refine iff_of_false (by simp) ?_
    rintro ⟨-, -, -, p4⟩
    rw [Bool.and_eq_true] at h4
    obtain ⟨hA, hB⟩ := h4
    rw [Bool.not_eq_true'] at hB
    rw [p4 hA] at hB
    exact absurd hB (by decide)
  · rw [Bool.not_eq_true] at h1 h2 h3 h4
    exact iff_of_true rfl
      ⟨(guardSearch _ _ _).mp h1, (guardEq _ _ _).mp h2,
       (guardEq _ _ _).mp h3, (guardInstalled _ _).mp h4⟩

/-! ### The claims -/

/-- C1: the claim demands that a refresh whose new record set lacks the
selected name clears the selection and hides the detail panel.  The code
does neither: `loadModels` replaces `allModels` and re-renders without
revalidating `selectedModel` and without touching the panel.  Evaluated
at the spec's own §8 scenario (selection "modelA", refresh delivering an
empty set), the selection key and the open panel survive although no
record named "modelA" remains. -/
theorem C1_stale_selection_survives_refresh :
    ((loadModels lcDefault staleSelState (.ok [])).selectedModel = some ("modelA")) ∧
    ((loadModels lcDefault staleSelState (.ok [])).panelVisible = true) ∧
    ((loadModels lcDefault staleSelState (.ok [])).allModels = []) := by
  decide

/-- C2: the claim that every externally-supplied string field passes
through the escaping function before insertion is violated: variant 1
interpolates `params` (as well as `fit_level`, `fit_emoji`, `best_quant`
and `run_mode`) raw into the row markup, and variant 2 interpolates every
field raw, including `name`.  A payload placed in `params` (variant 1) or
in `name` (variant 2) reaches the rendered output verbatim, while the
escaping function would have rewritten it. -/
theorem C2_raw_markup_reaches_output :
    (seqContains (renderRow none payloadRecord).data
      (("<img src=x onerror=alert(1)>").data) = true) ∧
    (seqContains (renderV2Row payloadV2Record).data
      (("<img src=x onerror=alert(1)>").data) = true) ∧
    (escapeHtml ("<img src=x onerror=alert(1)>") ≠ "<img src=x onerror=alert(1)>") := by
  decide

/-- C3 counterexample: in the first variant a failing `get_model_fits`
leaves the entire state untouched (the handler only logs), so the table
keeps whatever it showed before — here the initial loading placeholder —
and no error text appears in it, contradicting the claim that the table
shows an explicit "error loading" state on failure. -/
theorem C3_v1_failure_shows_no_error_state :
    (loadModels lcDefault baseState (.error ("boom")) = baseState) ∧
    (baseState.tbody = initialLoadingRow) ∧
    (seqContains baseState.tbody.data (("Error").data) = false) := by
  decide

/-- C3 (amended): only the second variant reacts to a failed
`get_model_fits` by showing the explicit error row, which is textually
distinct from the empty-set row and from the initial loading placeholder;
the first variant leaves its state (and hence its table) unchanged. -/
theorem C3_error_state_per_variant (s2 : V2State) (e2 : String)
    (lc : String → String → ℚ) (s1 : AppState) (e1 : String) :
    ((loadModelsV2 s2 (.error e2)).modelsBody = errorLoadingRow) ∧
    (errorLoadingRow ≠ noModelsRow) ∧
    (errorLoadingRow ≠ initialLoadingRow) ∧
    (noModelsRow ≠ initialLoadingRow) ∧
    (loadModels lc s1 (.error e1) = s1) :=
  ⟨rfl, by decide, by decide, by decide, rfl⟩

/-- C4 counterexample: the code computes the detail bar width as
`Math.min(utilization_pct, 100)` with no lower clamp, so a negative
utilization yields a negative width rather than the 0 that the claimed
two-sided clamp to [0,100] would produce. -/
theorem C4_no_lower_clamp :
    (detailBarWidth recNegUtil = -5) ∧ (detailBarWidth recNegUtil < 0) ∧
    (detailBarWidth recNegUtil ≠ max 0 (min recNegUtil.utilization_pct 100)) := by
  decide

/-- C4 (amended): the detail-panel bar width is `utilization_pct` capped
above at 100; the code applies no lower bound, but for every non-negative
utilization the width lies in [0,100], and it is exactly 100 whenever the
raw value is at least 100.  The adjacent numeric label always shows the
raw, uncapped value formatted to one decimal place. -/
theorem C4_bar_clamped_above_label_raw (m : ModelFitRecord)
    (h : 0 ≤ m.utilization_pct) :
    (detailBarWidth m = min m.utilization_pct 100) ∧
    (0 ≤ detailBarWidth m) ∧ (detailBarWidth m ≤ 100) ∧
    (100 ≤ m.utilization_pct → detailBarWidth m = 100) ∧
    (detailBarLabel m = toFixed1 m.utilization_pct ++ "%") := by
  refine ⟨rfl, le_min h (by norm_num), min_le_right _ _, ?_, rfl⟩
  intro h100
  exact min_eq_right h100

/-- Witness for C4: at the spec's example value 143.7 the bar width is
exactly 100 and the label text is "143.7%". -/
theorem C4_bar_clamped_above_label_raw_witness :
    (0 ≤ recOverUtil.utilization_pct) ∧ (detailBarWidth recOverUtil = 100) ∧
    (detailBarLabel recOverUtil = "143.7%") := by
  have h0 : 0 ≤ recOverUtil.utilization_pct := by decide
  obtain ⟨-, -, -, h4, h5⟩ := C4_bar_clamped_above_label_raw recOverUtil h0
  refine ⟨h0, h4 (by decide), ?_⟩
  rw [h5]
  decide

/-- C5: a record is in the filtered output iff it is in the record set and
satisfies every active predicate: a non-empty search text must occur
(lowercased) as a contiguous substring of the lowercased name or the
lowercased provider, the two categorical filters must match exactly when
not "all", and installed-only requires the installed flag; each inactive
filter passes everything. -/
theorem C5_filter_conjunction (fs : Filters) (ms : List ModelFitRecord) (m : ModelFitRecord) :
    m ∈ getFilteredModels fs ms ↔
      m ∈ ms ∧
      (fs.searchText ≠ "" →
        (∃ pre post, (jsToLower m.name).data = pre ++ (jsToLower fs.searchText).data ++ post) ∨
        (∃ pre post, (jsToLower m.provider).data = pre ++ (jsToLower fs.searchText).data ++ post)) ∧
      (fs.fitFilter ≠ "all" → m.fit_level = fs.fitFilter) ∧
      (fs.catFilter ≠ "all" → m.category = fs.catFilter) ∧
      (fs.installedOnly = true → m.installed = true) := by
  simp only [getFilteredModels, List.mem_filter, filterCallback_iff, jsIncludes_iff,
    ne_eq, jsToLower_eq_empty_iff]

/-- C6: the comparator of the sort engine.  The descending direction is
the ascending comparison with its operands swapped (an identity that holds
for every locale comparator, unlike result negation); string values are
compared by the locale comparator on their lowercased forms; boolean
values are compared exactly like the numbers 1/0; numeric pairs are
compared by subtraction. -/
theorem C6_comparator_rules (lc : String → String → ℚ) (asc : Bool) :
    (∀ va vb, compareFn lc false va vb = compareFn lc true vb va) ∧
    (∀ a b, compareFn lc asc (.str a) (.str b) =
      some (if asc then lc (jsToLower a) (jsToLower b) else lc (jsToLower b) (jsToLower a))) ∧
    (∀ a b : Bool, compareFn lc asc (.bool a) (.bool b) =
      compareFn lc asc (.num (if a then 1 else 0)) (.num (if b then 1 else 0))) ∧
    (∀ a b : ℚ, compareFn lc asc (.num a) (.num b) =
      some (if asc then a - b else b - a)) := by
  refine ⟨?_, ?_, ?_, ?_⟩
  · intro va vb
    cases va <;> cases vb <;> rfl
  · intro a b
    cases asc <;> rfl
  · intro a b
    rfl
  · intro a b
    cases asc <;> simp [compareFn, ratSub_eq]

/-- C7: clicking the header of the current sort key keeps the key and
flips the direction; clicking the header of a different key adopts that
key and resets the direction to descending. -/
theorem C7_header_click (lc : String → String → ℚ) (s : AppState) (key : String) :
    (s.sortKey = key →
      (headerClick lc s key).sortKey = s.sortKey ∧
      (headerClick lc s key).sortAsc = !s.sortAsc) ∧
    (s.sortKey ≠ key →
      (headerClick lc s key).sortKey = key ∧
      (headerClick lc s key).sortAsc = false) := by
  unfold headerClick renderTable
  by_cases h : s.sortKey = key <;> simp [h]

/-- Witness for C7: from the default state (key "score", descending),
clicking "score" keeps the key and turns the direction ascending, and
clicking "name" adopts "name" with descending direction. -/
theorem C7_header_click_witness :
    ((headerClick lcDefault baseState ("score")).sortKey = "score" ∧
     (headerClick lcDefault baseState ("score")).sortAsc = true) ∧
    ((headerClick lcDefault baseState ("name")).sortKey = "name" ∧
     (headerClick lcDefault baseState ("name")).sortAsc = false) := by
  constructor
  · obtain ⟨h1, h2⟩ := (C7_header_click lcDefault baseState ("score")).1 (by decide)
    exact ⟨h1.trans (by decide), h2.trans (by decide)⟩
  · exact (C7_header_click lcDefault baseState ("name")).2 (by decide)

/-- C8 counterexample: at the spec's own §8 scenario (two records, one
filtered out by installed-only) the emitted count summary reads
"1 of 2 models" — the code's label ends in "models", not the claimed
"records". -/
theorem C8_label_says_models_not_records :
    ((renderTable lcDefault installedOnlyState).modelCount = "1 of 2 models") ∧
    ((renderTable lcDefault installedOnlyState).modelCount ≠ "1 of 2 records") := by
  decide

/-- C8 (amended): after every render the count summary is the string
"{visible} of {total} models", where visible is the number of records
passing the active filters and total is the size of the full record
set. -/
theorem C8_count_label_format (lc : String → String → ℚ) (s : AppState) :
    (renderTable lc s).modelCount =
      toString (getFilteredModels s.filters s.allModels).length ++ " of " ++
      toString s.allModels.length ++ " models" := by
  simp only [renderTable, sortModels_length]

/-- C9: the sort step reads the array behind the input reference, copies
it into a freshly allocated array and sorts only that copy in place: the
input array is bitwise unchanged, the result is a different reference
whose contents are a permutation of the input's records (the records
themselves are the same values), and filtering returns a sublist of the
input — its elements are literally the input's records, unmutated. -/
theorem C9_sort_copies_filter_preserves (lc : String → String → ℚ) (sortKey : String)
    (sortAsc : Bool) (h : ArrayHeap) (r : Nat) (hr : r < h.arrays.length) :
    ((sortModelsRef lc sortKey sortAsc h r).1.get r = h.get r) ∧
    ((sortModelsRef lc sortKey sortAsc h r).2 ≠ r) ∧
    (((sortModelsRef lc sortKey sortAsc h r).1.get
        (sortModelsRef lc sortKey sortAsc h r).2).Perm (h.get r)) ∧
    (∀ (fs : Filters) (ms : List ModelFitRecord), (getFilteredModels fs ms).Sublist ms) := by
  have hget : (h.arrays ++ [h.get r]).getD h.arrays.length [] = h.get r :=
    listGetDLength _ _ _
  have hres1 : (sortModelsRef lc sortKey sortAsc h r).1 =
      ⟨(h.arrays ++ [h.get r]).set h.arrays.length
        (sortModels lc sortKey sortAsc ((h.arrays ++ [h.get r]).getD h.arrays.length []))⟩ :=
    rfl
  rw [hget] at hres1
  have hres2 : (sortModelsRef lc sortKey sortAsc h r).2 = h.arrays.length := rfl
  refine ⟨?_, ?_, ?_, fun fs ms => List.filter_sublist ms⟩
  · rw [hres1]
    show ((h.arrays ++ [h.get r]).set h.arrays.length _).getD r [] = h.get r
    rw [listSetAppend, listGetDAppend _ _ _ _ hr]
    rfl
  · rw [hres2]
    exact hr.ne'
  · rw [hres1, hres2]
    show ((h.arrays ++ [h.get r]).set h.arrays.length _).getD h.arrays.length [] |>.Perm _
    rw [listSetAppend, listGetDLength]
    exact sortModels_perm lc sortKey sortAsc (h.get r)

/-- Witness for C9: the concrete one-array heap with the two §8 records,
sorted by the default key. -/
theorem C9_sort_copies_filter_preserves_witness :
    (0 < heap0.arrays.length) ∧
    ((sortModelsRef lcDefault ("score") false heap0 0).1.get 0 = heap0.get 0) ∧
    ((sortModelsRef lcDefault ("score") false heap0 0).2 ≠ 0) := by
  have h := C9_sort_copies_filter_preserves lcDefault ("score") false heap0 0 (by decide)
  exact ⟨by decide, h.1, h.2.1⟩

/-- C10: invoking the row-click handler with a name that matches no record
still records that name as the selection key, then returns early: the
detail content, the panel visibility, the table body and the count label
all keep their previous values (no re-render happens). -/
theorem C10_show_detail_unknown_name (lc : String → String → ℚ) (s : AppState)
    (name : String) (h : ∀ m ∈ s.allModels, m.name ≠ name) :
    showDetail lc s name = { s with selectedModel := some name } := by
  have hfind : ({ s with selectedModel := some name } : AppState).allModels.find?
      (fun m => m.name == name) = none := by
    rw [List.find?_eq_none]
    intro m hm
    simp only [beq_iff_eq]
    exact h m hm
  simp only [showDetail, hfind]

/-- Witness for C10: clicking a row named "ghost" in a state that only
contains the record "a/x" sets the selection to "ghost" and changes
nothing else. -/
theorem C10_show_detail_unknown_name_witness :
    (∀ m ∈ ({ baseState with allModels := [recAX] } : AppState).allModels,
      m.name ≠ "ghost") ∧
    showDetail lcDefault { baseState with allModels := [recAX] } ("ghost") =
      { baseState with allModels := [recAX], selectedModel := some ("ghost") } := by
  have hm : ∀ m ∈ ({ baseState with allModels := [recAX] } : AppState).allModels,
      m.name ≠ "ghost" := by decide
  exact ⟨hm, C10_show_detail_unknown_name lcDefault _ _ hm⟩

end Llmfit
